import Mathlib

/-!
# Verification of the colour metric-tensor module (`colour/tensor.py`)

Shallow embedding of the tensor-construction engine: the Euclidean-family
builders, the Riemannised CIEDE2000 builder `dE_00`, and the Poincaré-disk
builder, over the real numbers.  The collaborator modules (`data`, `space`)
are not part of the core source; the small interface the core consumes from
them (coordinate lookup, zero-matrix allocation, the `TensorData` triple) is
modelled from the spec, as marked on each such definition.
-/

namespace GamutTensor

/-- A colour point is a 3-vector of real coordinates. -/
abbrev Point : Type := Fin 3 → ℝ

/-- A per-point metric tensor is a real 3×3 matrix. -/
abbrev Mat3 : Type := Matrix (Fin 3) (Fin 3) ℝ

/-- Modelled from the spec: the base colour-space identifiers the module
refers to (`space.xyz`, `space.cielab`, `space.cieluv`, `space.lgj_e`, the
four DIN99 variants, and the dedicated CIEDE2000 cylindrical space). -/
inductive BaseSpace where
  | xyz | cielabBase | cieluv | lgj_e | din99 | din99b | din99c | din99d | ciede00lch
  deriving DecidableEq

/-- Modelled from the spec: a colour space is either a base coordinate system
or a Poincaré-disk model over a base space carrying a curvature radius `R`
(`space.TransformPoincareDisk(base, R=...)`). -/
inductive ColourSpace where
  | base (b : BaseSpace)
  | poincareDisk (b : BaseSpace) (R : ℝ)

/-- Modelled from the spec: the coordinate-system identity of a colour space.
The curvature radius `R` is a parameter of the metric, not of the coordinate
chart, so two disk spaces over the same base produce the same coordinates. -/
inductive SpaceId where
  | base (b : BaseSpace)
  | disk (b : BaseSpace)
  deriving DecidableEq

/-- The coordinate-system identity of a colour space. -/
def ColourSpace.id : ColourSpace → SpaceId
  | .base b => .base b
  | .poincareDisk b _ => .disk b

/-- Modelled from the spec: the curvature radius `sp.R` carried by
Poincaré-disk spaces (for other spaces the attribute is missing and the
behaviour undefined; the model returns a junk value there). -/
def ColourSpace.R : ColourSpace → ℝ
  | .base _ => 0
  | .poincareDisk _ r => r

namespace space

/-- Source `space.xyz`. -/
def xyz : ColourSpace := .base .xyz

/-- Source `space.cielab`. -/
def cielabSpace : ColourSpace := .base .cielabBase

/-- Source `space.cieluv`. -/
def cieluv : ColourSpace := .base .cieluv

/-- Source `space.lgj_e`. -/
def lgj_e : ColourSpace := .base .lgj_e

/-- Source `space.din99`. -/
def din99 : ColourSpace := .base .din99

/-- Source `space.din99b`. -/
def din99b : ColourSpace := .base .din99b

/-- Source `space.din99c`. -/
def din99c : ColourSpace := .base .din99c

/-- Source `space.din99d`. -/
def din99d : ColourSpace := .base .din99d

/-- Source `space.ciede00lch`: the dedicated CIEDE2000 cylindrical (L, C, h) space. -/
def ciede00lch : ColourSpace := .base .ciede00lch

/-- Source `space.TransformPoincareDisk(base, R)`. -/
def TransformPoincareDisk (b : BaseSpace) (R : ℝ) : ColourSpace :=
  .poincareDisk b R

end space

/-- Modelled from the spec: a Sample Batch.  It can be queried for its
coordinates in any supported coordinate system, the number of points is
fixed for the life of the batch, and point order is preserved across all
representations. -/
structure Data where
  coords : SpaceId → List Point
  coords_length : ∀ s s' : SpaceId, (coords s).length = (coords s').length

/-- Modelled from the spec: `dat.get_linear(sp)`, the coordinates of the batch in
colour space `sp`. -/
def Data.get_linear (dat : Data) (sp : ColourSpace) : List Point :=
  dat.coords sp.id

/-- Modelled from the spec: `dat.linear_XYZ`, the XYZ representation of the batch
(used by `euclidean` only for its shape). -/
def Data.linear_XYZ (dat : Data) : List Point :=
  dat.coords (SpaceId.base BaseSpace.xyz)

/-- Modelled from the spec: `sp.empty_matrix(pts)` allocates a
zero-initialized batch of 3×3 matrices shaped to match a batch of points. -/
def empty_matrix (pts : List Point) : List Mat3 :=
  pts.map (fun _ => (0 : Mat3))

/-- Modelled from the spec: `data.TensorData(sp, dat, g)` — the immutable
triple of native colour space, originating sample batch and tensor batch. -/
structure TensorData where
  space : ColourSpace
  batch : Data
  g : List Mat3

/-- Source `tensor.euclidean(sp, dat)`: allocate `sp.empty_matrix(dat.linear_XYZ)`
and overwrite every per-point matrix with `np.eye(3)`. -/
def euclidean (sp : ColourSpace) (dat : Data) : TensorData :=
  ⟨sp, dat, (empty_matrix dat.linear_XYZ).map (fun _ => (1 : Mat3))⟩

/-- Source `tensor.dE_ab(dat) = euclidean(space.cielab, dat)`. -/
def dE_ab (dat : Data) : TensorData := euclidean space.cielabSpace dat

/-- Source `tensor.dE_uv(dat) = euclidean(space.cieluv, dat)`. -/
def dE_uv (dat : Data) : TensorData := euclidean space.cieluv dat

/-- Source `tensor.dE_E(dat) = euclidean(space.lgj_e, dat)`. -/
def dE_E (dat : Data) : TensorData := euclidean space.lgj_e dat

/-- Source `tensor.dE_DIN99(dat) = euclidean(space.din99, dat)`. -/
def dE_DIN99 (dat : Data) : TensorData := euclidean space.din99 dat

/-- Source `tensor.dE_DIN99b(dat) = euclidean(space.din99b, dat)`. -/
def dE_DIN99b (dat : Data) : TensorData := euclidean space.din99b dat

/-- Source `tensor.dE_DIN99c(dat) = euclidean(space.din99c, dat)`. -/
def dE_DIN99c (dat : Data) : TensorData := euclidean space.din99c dat

/-- Source `tensor.dE_DIN99d(dat) = euclidean(space.din99d, dat)`. -/
def dE_DIN99d (dat : Data) : TensorData := euclidean space.din99d dat

/-- Source `np.rad2deg`. -/
noncomputable def rad2deg (x : ℝ) : ℝ := x * (180 / Real.pi)

/-- Source `np.deg2rad`. -/
noncomputable def deg2rad (x : ℝ) : ℝ := x * (Real.pi / 180)

/-- The elementwise normalization `h_deg[h_deg < 0] = h_deg[h_deg < 0] + 360`
of `dE_00`. -/
noncomputable def normDeg (x : ℝ) : ℝ := if x < 0 then x + 360 else x

/-- Source `S_L = 1 + (0.015 * (L - 50)**2) / np.sqrt(20 + (L - 50)**2)`. -/
noncomputable def S_L (L : ℝ) : ℝ :=
  1 + (0.015 * (L - 50) ^ 2) / Real.sqrt (20 + (L - 50) ^ 2)

/-- Source `S_C = 1 + 0.045 * C`. -/
noncomputable def S_C (C : ℝ) : ℝ := 1 + 0.045 * C

/-- The hue-correction scalar `T` of `dE_00`; its second cosine term takes
the hue angle `h` in radians while the remaining terms take the normalized
degree value `h_deg` converted back to radians. -/
noncomputable def T (h h_deg : ℝ) : ℝ :=
  1 - 0.17 * Real.cos (deg2rad (h_deg - 30)) +
    0.24 * Real.cos (2 * h) +
    0.32 * Real.cos (deg2rad (3 * h_deg + 6)) -
    0.2 * Real.cos (deg2rad (4 * h_deg - 63))

/-- Source `S_h = 1 + 0.015 * C * T`. -/
noncomputable def S_h (C h h_deg : ℝ) : ℝ := 1 + 0.015 * C * T h h_deg

/-- Source `R_C = 2 * np.sqrt(C**7 / (C**7 + 25**7))`. -/
noncomputable def R_C (C : ℝ) : ℝ :=
  2 * Real.sqrt (C ^ 7 / (C ^ 7 + 25 ^ 7))

/-- Source `d_theta = 30 * np.exp(-((h_deg - 275) / 25)**2)`. -/
noncomputable def d_theta (h_deg : ℝ) : ℝ :=
  30 * Real.exp (-((h_deg - 275) / 25) ^ 2)

/-- Source `R_T = -R_C * np.sin(np.deg2rad(2 * d_theta))`. -/
noncomputable def R_T (C h_deg : ℝ) : ℝ :=
  -R_C C * Real.sin (deg2rad (2 * d_theta h_deg))

/-- The per-point matrix of `dE_00`: the zero matrix of
`space.ciede00lch.empty_matrix(lch)` with the five assigned entries
`g[0,0]`, `g[1,1]`, `g[2,2]`, `g[1,2]`, `g[2,1]` filled in from the
point value `(L, C, h) = (lch[:,0], lch[:,1], lch[:,2])`. -/
noncomputable def dE00_point (k_L k_C k_h : ℝ) (p : Point) : Mat3 :=
  let L := p 0
  let C := p 1
  let h := p 2
  let h_deg := normDeg (rad2deg h)
  fun i j =>
    if i = 0 ∧ j = 0 then (k_L * S_L L) ^ (-2 : ℤ)
    else if i = 1 ∧ j = 1 then (k_C * S_C C) ^ (-2 : ℤ)
    else if i = 2 ∧ j = 2 then C ^ 2 * (k_h * S_h C h h_deg) ^ (-2 : ℤ)
    else if i = 1 ∧ j = 2 then
      0.5 * C * R_T C h_deg / (k_C * S_C C * k_h * S_h C h h_deg)
    else if i = 2 ∧ j = 1 then
      0.5 * C * R_T C h_deg / (k_C * S_C C * k_h * S_h C h h_deg)
    else 0

/-- Source `tensor.dE_00(dat, k_L, k_C, k_h)` (the source defaults each weight to
1): fetch `lch = dat.get_linear(space.ciede00lch)`, build the per-point
matrices, and tag the result with `space.ciede00lch`. -/
noncomputable def dE_00 (dat : Data) (k_L k_C k_h : ℝ) : TensorData :=
  let lch := dat.get_linear space.ciede00lch
  ⟨space.ciede00lch, dat, lch.map (dE00_point k_L k_C k_h)⟩

/-- The per-point matrix of `poincare_disk`: the zero matrix with
`g[i,0,0] = 1` and `g[i,1,1] = g[i,2,2] = sp.R**2 * 4 / (1 - d[i,1]**2 -
d[i,2]**2)**2`. -/
noncomputable def poincare_point (R : ℝ) (p : Point) : Mat3 :=
  fun i j =>
    if i = 0 ∧ j = 0 then 1
    else if i = 1 ∧ j = 1 then R ^ 2 * 4 / (1 - p 1 ^ 2 - p 2 ^ 2) ^ 2
    else if i = 2 ∧ j = 2 then R ^ 2 * 4 / (1 - p 1 ^ 2 - p 2 ^ 2) ^ 2
    else 0

/-- Source `tensor.poincare_disk(sp, dat)`: fetch `d = dat.get_linear(sp)`, build
the per-point matrices from `sp.R` and the disk coordinates, and tag the
result with `sp`. -/
noncomputable def poincare_disk (sp : ColourSpace) (dat : Data) : TensorData :=
  let d := dat.get_linear sp
  ⟨sp, dat, d.map (poincare_point sp.R)⟩

/-- The default point used when reading a batch entry out of range. -/
def defPoint : Point := fun _ => 0

/-- A one-point sample batch whose coordinates are the same point `p` in
every coordinate system (used to instantiate the theorems concretely). -/
def constData (p : Point) : Data :=
  ⟨fun _ => [p], fun _ _ => rfl⟩

/-- A concrete sample point with L = 50, C = 10, h = 1 rad. -/
def ptA : Point := fun i => if i = 0 then 50 else if i = 1 then 10 else 1

/-- A concrete sample point at the origin. -/
def pt0 : Point := fun _ => 0

/-- A concrete sample point with L = 50, zero chroma and h = 1 rad. -/
def ptC0 : Point := fun i => if i = 0 then 50 else if i = 1 then 0 else 1

/-!
## Shared lemmas about the builders
-/

/-- Reading the `n`-th element of a mapped tensor batch, for `n` in range. -/
lemma map_getD_mat (l : List Point) (f : Point → Mat3) (n : ℕ)
    (hn : n < l.length) :
    (l.map f).getD n 0 = f (l.getD n defPoint) := by
  rw [List.getD_eq_getElem?_getD, List.getD_eq_getElem?_getD,
    List.getElem?_map, List.getElem?_eq_getElem hn]
  rfl

lemma dE00_g_getD (dat : Data) (k_L k_C k_h : ℝ) (n : ℕ)
    (hn : n < (dat.get_linear space.ciede00lch).length) :
    (dE_00 dat k_L k_C k_h).g.getD n 0 =
      dE00_point k_L k_C k_h
        ((dat.get_linear space.ciede00lch).getD n defPoint) :=
  map_getD_mat _ _ n hn

lemma poincare_g_getD (sp : ColourSpace) (dat : Data) (n : ℕ)
    (hn : n < (dat.get_linear sp).length) :
    (poincare_disk sp dat).g.getD n 0 =
      poincare_point sp.R ((dat.get_linear sp).getD n defPoint) :=
  map_getD_mat _ _ n hn

lemma dE00_point_symm (k_L k_C k_h : ℝ) (p : Point) (i j : Fin 3) :
    dE00_point k_L k_C k_h p i j = dE00_point k_L k_C k_h p j i := by
  fin_cases i <;> fin_cases j <;> rfl

lemma poincare_point_symm (R : ℝ) (p : Point) (i j : Fin 3) :
    poincare_point R p i j = poincare_point R p j i := by
  fin_cases i <;> fin_cases j <;> rfl

lemma dE00_point_11 (k_L k_C k_h : ℝ) (p : Point) :
    dE00_point k_L k_C k_h p 1 1 = (k_C * S_C (p 1)) ^ (-2 : ℤ) := rfl

lemma dE00_point_22 (k_L k_C k_h : ℝ) (p : Point) :
    dE00_point k_L k_C k_h p 2 2 =
      p 1 ^ 2 *
        (k_h * S_h (p 1) (p 2) (normDeg (rad2deg (p 2)))) ^ (-2 : ℤ) := rfl

lemma dE00_point_12 (k_L k_C k_h : ℝ) (p : Point) :
    dE00_point k_L k_C k_h p 1 2 =
      0.5 * p 1 * R_T (p 1) (normDeg (rad2deg (p 2))) /
        (k_C * S_C (p 1) * k_h *
          S_h (p 1) (p 2) (normDeg (rad2deg (p 2)))) := rfl

lemma dE00_point_21 (k_L k_C k_h : ℝ) (p : Point) :
    dE00_point k_L k_C k_h p 2 1 =
      0.5 * p 1 * R_T (p 1) (normDeg (rad2deg (p 2))) /
        (k_C * S_C (p 1) * k_h *
          S_h (p 1) (p 2) (normDeg (rad2deg (p 2)))) := rfl

lemma poincare_point_11 (R : ℝ) (p : Point) :
    poincare_point R p 1 1 = R ^ 2 * 4 / (1 - p 1 ^ 2 - p 2 ^ 2) ^ 2 := rfl

lemma poincare_point_22 (R : ℝ) (p : Point) :
    poincare_point R p 2 2 = R ^ 2 * 4 / (1 - p 1 ^ 2 - p 2 ^ 2) ^ 2 := rfl

lemma zpow_neg_two_eq (x : ℝ) : x ^ (-2 : ℤ) = 1 / x ^ 2 := by
  rw [zpow_neg, one_div, show ((2 : ℤ)) = ((2 : ℕ) : ℤ) from rfl, zpow_natCast]

lemma mul_zpow_neg_two (a b : ℝ) :
    (a * b) ^ (-2 : ℤ) = 1 / a ^ 2 * (1 * b) ^ (-2 : ℤ) := by
  rw [one_mul, zpow_neg_two_eq, zpow_neg_two_eq, mul_pow]
  rw [one_div, one_div, one_div, mul_inv]

lemma div_weight_split (x sC sh kC kh : ℝ) :
    x / (kC * sC * kh * sh) = 1 / (kC * kh) * (x / (1 * sC * 1 * sh)) := by
  simp [div_eq_mul_inv, mul_inv]; ring

/-!
## Claim theorems
-/

/-- C1: for every sample batch and weights `k_L`, `k_C`, `k_h`, `dE_00`
returns a `TensorData` tagged with the CIEDE2000 cylindrical space whose
per-point 3×3 matrix has `g[0,0] = (k_L*S_L)⁻²`, `g[1,1] = (k_C*S_C)⁻²`,
`g[2,2] = C²*(k_h*S_h)⁻²`, `g[1,2] = g[2,1] = 0.5*C*R_T/(k_C*S_C*k_h*S_h)`,
and all other entries zero, the correction scalars being computed from that
point value `(L, C, h)`. -/
theorem dE00_tensor_spec (dat : Data) (k_L k_C k_h : ℝ) (n : ℕ)
    (hn : n < (dat.get_linear space.ciede00lch).length) :
    (dE_00 dat k_L k_C k_h).space = space.ciede00lch ∧
    (dE_00 dat k_L k_C k_h).g.length =
      (dat.get_linear space.ciede00lch).length ∧
    (let p := (dat.get_linear space.ciede00lch).getD n defPoint
     let L := p 0
     let C := p 1
     let h := p 2
     let h_deg := normDeg (rad2deg h)
     let g := (dE_00 dat k_L k_C k_h).g.getD n 0
     g 0 0 = (k_L * S_L L) ^ (-2 : ℤ) ∧
     g 1 1 = (k_C * S_C C) ^ (-2 : ℤ) ∧
     g 2 2 = C ^ 2 * (k_h * S_h C h h_deg) ^ (-2 : ℤ) ∧
     g 1 2 = 0.5 * C * R_T C h_deg / (k_C * S_C C * k_h * S_h C h h_deg) ∧
     g 2 1 = 0.5 * C * R_T C h_deg / (k_C * S_C C * k_h * S_h C h h_deg) ∧
     g 0 1 = 0 ∧ g 0 2 = 0 ∧ g 1 0 = 0 ∧ g 2 0 = 0) := by
  refine ⟨rfl, by simp [dE_00], ?_⟩
  rw [dE00_g_getD dat k_L k_C k_h n hn]
  exact ⟨rfl, rfl, rfl, rfl, rfl, rfl, rfl, rfl, rfl⟩

/-- Witness for C1 at the one-point batch on `ptA` with unit weights. -/
theorem dE00_tensor_spec_witness :
    0 < ((constData ptA).get_linear space.ciede00lch).length ∧
    ((dE_00 (constData ptA) 1 1 1).space = space.ciede00lch ∧
     (dE_00 (constData ptA) 1 1 1).g.length =
       ((constData ptA).get_linear space.ciede00lch).length ∧
     (let p := ((constData ptA).get_linear space.ciede00lch).getD 0 defPoint
      let L := p 0
      let C := p 1
      let h := p 2
      let h_deg := normDeg (rad2deg h)
      let g := (dE_00 (constData ptA) 1 1 1).g.getD 0 0
      g 0 0 = (1 * S_L L) ^ (-2 : ℤ) ∧
      g 1 1 = (1 * S_C C) ^ (-2 : ℤ) ∧
      g 2 2 = C ^ 2 * (1 * S_h C h h_deg) ^ (-2 : ℤ) ∧
      g 1 2 = 0.5 * C * R_T C h_deg / (1 * S_C C * 1 * S_h C h h_deg) ∧
      g 2 1 = 0.5 * C * R_T C h_deg / (1 * S_C C * 1 * S_h C h h_deg) ∧
      g 0 1 = 0 ∧ g 0 2 = 0 ∧ g 1 0 = 0 ∧ g 2 0 = 0)) :=
  ⟨by decide, dE00_tensor_spec (constData ptA) 1 1 1 0 (by decide)⟩

/-- C2: the hue-correction scalar `T` used by `dE_00` equals
`1 - 0.17·cos(deg2rad(h_deg - 30)) + 0.24·cos(2h) + 0.32·cos(deg2rad(3·h_deg
+ 6)) - 0.2·cos(deg2rad(4·h_deg - 63))`, the `0.24·cos(2h)` term taking the
hue angle `h` in radians while the other three cosine terms take the
normalized degree value `h_deg` converted back to radians; this exact
mixed-unit form appears inside the `g[2,2]` entry of the output. -/
theorem dE00_T_mixed_units (dat : Data) (k_L k_C k_h : ℝ) (n : ℕ)
    (hn : n < (dat.get_linear space.ciede00lch).length) :
    (∀ hr hd : ℝ, T hr hd =
      1 - 0.17 * Real.cos (deg2rad (hd - 30)) +
        0.24 * Real.cos (2 * hr) +
        0.32 * Real.cos (deg2rad (3 * hd + 6)) -
        0.2 * Real.cos (deg2rad (4 * hd - 63))) ∧
    (let p := (dat.get_linear space.ciede00lch).getD n defPoint
     let C := p 1
     let h := p 2
     let h_deg := normDeg (rad2deg h)
     (dE_00 dat k_L k_C k_h).g.getD n 0 2 2 =
       C ^ 2 * (k_h * (1 + 0.015 * C *
         (1 - 0.17 * Real.cos (deg2rad (h_deg - 30)) +
          0.24 * Real.cos (2 * h) +
          0.32 * Real.cos (deg2rad (3 * h_deg + 6)) -
          0.2 * Real.cos (deg2rad (4 * h_deg - 63))))) ^ (-2 : ℤ)) := by
  refine ⟨fun hr hd => rfl, ?_⟩
  rw [dE00_g_getD dat k_L k_C k_h n hn]
  rfl

/-- Witness for C2 at the one-point batch on `ptA` with unit weights. -/
theorem dE00_T_mixed_units_witness :
    0 < ((constData ptA).get_linear space.ciede00lch).length ∧
    ((∀ hr hd : ℝ, T hr hd =
      1 - 0.17 * Real.cos (deg2rad (hd - 30)) +
        0.24 * Real.cos (2 * hr) +
        0.32 * Real.cos (deg2rad (3 * hd + 6)) -
        0.2 * Real.cos (deg2rad (4 * hd - 63))) ∧
    (let p := ((constData ptA).get_linear space.ciede00lch).getD 0 defPoint
     let C := p 1
     let h := p 2
     let h_deg := normDeg (rad2deg h)
     (dE_00 (constData ptA) 1 1 1).g.getD 0 0 2 2 =
       C ^ 2 * (1 * (1 + 0.015 * C *
         (1 - 0.17 * Real.cos (deg2rad (h_deg - 30)) +
          0.24 * Real.cos (2 * h) +
          0.32 * Real.cos (deg2rad (3 * h_deg + 6)) -
          0.2 * Real.cos (deg2rad (4 * h_deg - 63))))) ^ (-2 : ℤ))) :=
  ⟨by decide, dE00_T_mixed_units (constData ptA) 1 1 1 0 (by decide)⟩

/-- C3 (counterexample): for the hue angle `h = -4π` the degree value is
`-720`, which is negative, yet after the normalization step `h_deg` is
`-360`, outside `[0, 360)`: adding 360 once does not normalize every
negative degree value. -/
theorem normDeg_counterexample :
    rad2deg (-(4 * Real.pi)) < 0 ∧
    ¬ (0 ≤ normDeg (rad2deg (-(4 * Real.pi))) ∧
        normDeg (rad2deg (-(4 * Real.pi))) < 360) := by
  have h720 : rad2deg (-(4 * Real.pi)) = -720 := by
    rw [rad2deg]; field_simp; ring
  rw [h720]
  constructor
  · norm_num
  · rw [normDeg]; norm_num

/-- C3 (amended): every point whose degree hue was negative but no smaller
than -360 (equivalently, whose radian hue is at least `-2π`) has, after the
normalization that adds 360, a degree hue `h_deg` lying in `[0, 360)`. -/
theorem normDeg_mem_Ico (h : ℝ) (hneg : rad2deg h < 0)
    (hge : -360 ≤ rad2deg h) :
    0 ≤ normDeg (rad2deg h) ∧ normDeg (rad2deg h) < 360 := by
  rw [normDeg, if_pos hneg]
  constructor <;> linarith

/-- Witness for the amended C3 at `h = -π`, whose degree value is -180. -/
theorem normDeg_mem_Ico_witness :
    rad2deg (-Real.pi) < 0 ∧ -360 ≤ rad2deg (-Real.pi) ∧
    (0 ≤ normDeg (rad2deg (-Real.pi)) ∧ normDeg (rad2deg (-Real.pi)) < 360) := by
  have h180 : rad2deg (-Real.pi) = -180 := by
    rw [rad2deg]; field_simp; ring
  refine ⟨by rw [h180]; norm_num, by rw [h180]; norm_num,
    normDeg_mem_Ico (-Real.pi) (by rw [h180]; norm_num) (by rw [h180]; norm_num)⟩

/-- C4: at a point with zero chroma, `dE_00` still yields a matrix, with
`g[0,0] = (k_L·S_L)⁻²` computed from `L` alone, `g[1,1] = k_C⁻²` (as
`S_C = 1` when `C = 0`), `g[2,2] = 0`, and both off-diagonal entries 0. -/
theorem dE00_zero_chroma (dat : Data) (k_L k_C k_h : ℝ) (n : ℕ)
    (hn : n < (dat.get_linear space.ciede00lch).length)
    (hC : ((dat.get_linear space.ciede00lch).getD n defPoint) 1 = 0) :
    (dE_00 dat k_L k_C k_h).g.getD n 0 0 0 =
      (k_L * S_L (((dat.get_linear space.ciede00lch).getD n defPoint) 0))
        ^ (-2 : ℤ) ∧
    (dE_00 dat k_L k_C k_h).g.getD n 0 1 1 = k_C ^ (-2 : ℤ) ∧
    (dE_00 dat k_L k_C k_h).g.getD n 0 2 2 = 0 ∧
    (dE_00 dat k_L k_C k_h).g.getD n 0 1 2 = 0 ∧
    (dE_00 dat k_L k_C k_h).g.getD n 0 2 1 = 0 := by
  rw [dE00_g_getD dat k_L k_C k_h n hn]
  refine ⟨rfl, ?_, ?_, ?_, ?_⟩
  · rw [dE00_point_11, hC, S_C]
    norm_num
  · rw [dE00_point_22, hC]
    norm_num
  · rw [dE00_point_12, hC]
    norm_num
  · rw [dE00_point_21, hC]
    norm_num

/-- Witness for C4 at the one-point batch on the zero-chroma point `ptC0`
with weights (2, 2, 2). -/
theorem dE00_zero_chroma_witness :
    0 < ((constData ptC0).get_linear space.ciede00lch).length ∧
    ((constData ptC0).get_linear space.ciede00lch).getD 0 defPoint 1 = 0 ∧
    ((dE_00 (constData ptC0) 2 2 2).g.getD 0 0 0 0 =
      (2 * S_L (((constData ptC0).get_linear space.ciede00lch).getD 0
        defPoint 0)) ^ (-2 : ℤ) ∧
     (dE_00 (constData ptC0) 2 2 2).g.getD 0 0 1 1 = (2 : ℝ) ^ (-2 : ℤ) ∧
     (dE_00 (constData ptC0) 2 2 2).g.getD 0 0 2 2 = 0 ∧
     (dE_00 (constData ptC0) 2 2 2).g.getD 0 0 1 2 = 0 ∧
     (dE_00 (constData ptC0) 2 2 2).g.getD 0 0 2 1 = 0) :=
  ⟨by decide, rfl, dE00_zero_chroma (constData ptC0) 2 2 2 0 (by decide) rfl⟩

/-- C5: with nonzero weights, `dE_00` relates to the unit-weight call by
`g[0,0]` scaled by `1/k_L²`, `g[1,1]` by `1/k_C²`, `g[2,2]` by `1/k_h²`, the
off-diagonal entries by `1/(k_C·k_h)`; and each diagonal entry is
independent of the two weights that do not belong to it. -/
theorem dE00_weight_scaling (dat : Data) (k_L k_C k_h : ℝ)
    (hL : k_L ≠ 0) (hC : k_C ≠ 0) (hh : k_h ≠ 0) (n : ℕ)
    (hn : n < (dat.get_linear space.ciede00lch).length) :
    (dE_00 dat k_L k_C k_h).g.getD n 0 0 0 =
      1 / k_L ^ 2 * (dE_00 dat 1 1 1).g.getD n 0 0 0 ∧
    (dE_00 dat k_L k_C k_h).g.getD n 0 1 1 =
      1 / k_C ^ 2 * (dE_00 dat 1 1 1).g.getD n 0 1 1 ∧
    (dE_00 dat k_L k_C k_h).g.getD n 0 2 2 =
      1 / k_h ^ 2 * (dE_00 dat 1 1 1).g.getD n 0 2 2 ∧
    (dE_00 dat k_L k_C k_h).g.getD n 0 1 2 =
      1 / (k_C * k_h) * (dE_00 dat 1 1 1).g.getD n 0 1 2 ∧
    (dE_00 dat k_L k_C k_h).g.getD n 0 2 1 =
      1 / (k_C * k_h) * (dE_00 dat 1 1 1).g.getD n 0 2 1 ∧
    (∀ x y : ℝ, (dE_00 dat k_L x y).g.getD n 0 0 0 =
      (dE_00 dat k_L k_C k_h).g.getD n 0 0 0) ∧
    (∀ x y : ℝ, (dE_00 dat x k_C y).g.getD n 0 1 1 =
      (dE_00 dat k_L k_C k_h).g.getD n 0 1 1) ∧
    (∀ x y : ℝ, (dE_00 dat x y k_h).g.getD n 0 2 2 =
      (dE_00 dat k_L k_C k_h).g.getD n 0 2 2) := by
  have hg : ∀ a b c : ℝ, (dE_00 dat a b c).g.getD n 0 =
      dE00_point a b c ((dat.get_linear space.ciede00lch).getD n defPoint) :=
    fun a b c => dE00_g_getD dat a b c n hn
  refine ⟨?_, ?_, ?_, ?_, ?_,
    fun x y => by rw [hg, hg]; rfl, fun x y => by rw [hg, hg]; rfl,
    fun x y => by rw [hg, hg]; rfl⟩
  · rw [hg, hg]
    exact mul_zpow_neg_two k_L _
  · rw [hg, hg]
    exact mul_zpow_neg_two k_C _
  · rw [hg, hg, dE00_point_22, dE00_point_22, mul_zpow_neg_two k_h]
    ring
  · rw [hg, hg, dE00_point_12, dE00_point_12]
    exact div_weight_split _ _ _ _ _
  · rw [hg, hg, dE00_point_21, dE00_point_21]
    exact div_weight_split _ _ _ _ _

/-- Witness for C5 at the one-point batch on `ptA` with weights (2, 3, 5). -/
theorem dE00_weight_scaling_witness :
    (2 : ℝ) ≠ 0 ∧ (3 : ℝ) ≠ 0 ∧ (5 : ℝ) ≠ 0 ∧
    0 < ((constData ptA).get_linear space.ciede00lch).length ∧
    ((dE_00 (constData ptA) 2 3 5).g.getD 0 0 0 0 =
      1 / (2 : ℝ) ^ 2 * (dE_00 (constData ptA) 1 1 1).g.getD 0 0 0 0 ∧
    (dE_00 (constData ptA) 2 3 5).g.getD 0 0 1 1 =
      1 / (3 : ℝ) ^ 2 * (dE_00 (constData ptA) 1 1 1).g.getD 0 0 1 1 ∧
    (dE_00 (constData ptA) 2 3 5).g.getD 0 0 2 2 =
      1 / (5 : ℝ) ^ 2 * (dE_00 (constData ptA) 1 1 1).g.getD 0 0 2 2 ∧
    (dE_00 (constData ptA) 2 3 5).g.getD 0 0 1 2 =
      1 / ((3 : ℝ) * 5) * (dE_00 (constData ptA) 1 1 1).g.getD 0 0 1 2 ∧
    (dE_00 (constData ptA) 2 3 5).g.getD 0 0 2 1 =
      1 / ((3 : ℝ) * 5) * (dE_00 (constData ptA) 1 1 1).g.getD 0 0 2 1 ∧
    (∀ x y : ℝ, (dE_00 (constData ptA) 2 x y).g.getD 0 0 0 0 =
      (dE_00 (constData ptA) 2 3 5).g.getD 0 0 0 0) ∧
    (∀ x y : ℝ, (dE_00 (constData ptA) x 3 y).g.getD 0 0 1 1 =
      (dE_00 (constData ptA) 2 3 5).g.getD 0 0 1 1) ∧
    (∀ x y : ℝ, (dE_00 (constData ptA) x y 5).g.getD 0 0 2 2 =
      (dE_00 (constData ptA) 2 3 5).g.getD 0 0 2 2)) :=
  ⟨by norm_num, by norm_num, by norm_num, by decide,
   dE00_weight_scaling (constData ptA) 2 3 5 (by norm_num) (by norm_num)
     (by norm_num) 0 (by decide)⟩

/-- C6: `euclidean(sp, dat)` returns a tensor batch with one 3×3 matrix per
sample point, each exactly the identity; each of the seven named builders is
that construction at its fixed target colour space. -/
theorem euclidean_identity :
    (∀ (sp : ColourSpace) (dat : Data),
      (euclidean sp dat).g.length = dat.linear_XYZ.length ∧
      ∀ g ∈ (euclidean sp dat).g, ∀ i j : Fin 3,
        g i j = if i = j then 1 else 0) ∧
    (∀ dat, dE_ab dat = euclidean space.cielabSpace dat) ∧
    (∀ dat, dE_uv dat = euclidean space.cieluv dat) ∧
    (∀ dat, dE_E dat = euclidean space.lgj_e dat) ∧
    (∀ dat, dE_DIN99 dat = euclidean space.din99 dat) ∧
    (∀ dat, dE_DIN99b dat = euclidean space.din99b dat) ∧
    (∀ dat, dE_DIN99c dat = euclidean space.din99c dat) ∧
    (∀ dat, dE_DIN99d dat = euclidean space.din99d dat) := by
  refine ⟨fun sp dat => ⟨by simp [euclidean, empty_matrix], ?_⟩,
    fun _ => rfl, fun _ => rfl, fun _ => rfl, fun _ => rfl,
    fun _ => rfl, fun _ => rfl, fun _ => rfl⟩
  intro g hg i j
  rcases List.mem_map.1 hg with ⟨x, -, rfl⟩
  exact Matrix.one_apply

/-- Witness for C6 at the one-point batch on `pt0` in CIELAB. -/
theorem euclidean_identity_witness :
    (euclidean space.cielabSpace (constData pt0)).g.length =
      (constData pt0).linear_XYZ.length ∧
    (1 : Mat3) ∈ (euclidean space.cielabSpace (constData pt0)).g ∧
    (∀ i j : Fin 3, (1 : Mat3) i j = if i = j then 1 else 0) :=
  ⟨(euclidean_identity.1 space.cielabSpace (constData pt0)).1, List.Mem.head _,
   (euclidean_identity.1 space.cielabSpace (constData pt0)).2 1 (List.Mem.head _)⟩

lemma disk_R (b : BaseSpace) (R : ℝ) :
    (space.TransformPoincareDisk b R).R = R := rfl

/-- C7: for a Poincaré-disk space with curvature radius `R`,
`poincare_disk` yields per-point matrices with `g[0,0] = 1`,
`g[1,1] = g[2,2] = 4·R²/(1 - d1² - d2²)²` from the disk coordinates of the point,
all other entries zero; at a point with `d1 = d2 = 0` both equal `4·R²`. -/
theorem poincare_disk_spec (b : BaseSpace) (R : ℝ) (dat : Data) (n : ℕ)
    (hn : n < (dat.get_linear (space.TransformPoincareDisk b R)).length) :
    (poincare_disk (space.TransformPoincareDisk b R) dat).g.getD n 0 0 0
      = 1 ∧
    (poincare_disk (space.TransformPoincareDisk b R) dat).g.getD n 0 1 1 =
      4 * R ^ 2 /
        (1 - ((dat.get_linear (space.TransformPoincareDisk b R)).getD n
                defPoint 1) ^ 2 -
             ((dat.get_linear (space.TransformPoincareDisk b R)).getD n
                defPoint 2) ^ 2) ^ 2 ∧
    (poincare_disk (space.TransformPoincareDisk b R) dat).g.getD n 0 2 2 =
      4 * R ^ 2 /
        (1 - ((dat.get_linear (space.TransformPoincareDisk b R)).getD n
                defPoint 1) ^ 2 -
             ((dat.get_linear (space.TransformPoincareDisk b R)).getD n
                defPoint 2) ^ 2) ^ 2 ∧
    (poincare_disk (space.TransformPoincareDisk b R) dat).g.getD n 0 0 1
      = 0 ∧
    (poincare_disk (space.TransformPoincareDisk b R) dat).g.getD n 0 0 2
      = 0 ∧
    (poincare_disk (space.TransformPoincareDisk b R) dat).g.getD n 0 1 0
      = 0 ∧
    (poincare_disk (space.TransformPoincareDisk b R) dat).g.getD n 0 1 2
      = 0 ∧
    (poincare_disk (space.TransformPoincareDisk b R) dat).g.getD n 0 2 0
      = 0 ∧
    (poincare_disk (space.TransformPoincareDisk b R) dat).g.getD n 0 2 1
      = 0 ∧
    (((dat.get_linear (space.TransformPoincareDisk b R)).getD n
        defPoint 1 = 0 ∧
      (dat.get_linear (space.TransformPoincareDisk b R)).getD n
        defPoint 2 = 0) →
      (poincare_disk (space.TransformPoincareDisk b R) dat).g.getD n 0 1 1
          = 4 * R ^ 2 ∧
      (poincare_disk (space.TransformPoincareDisk b R) dat).g.getD n 0 2 2
          = 4 * R ^ 2) := by
  have hg := poincare_g_getD (space.TransformPoincareDisk b R) dat n hn
  refine ⟨by rw [hg]; rfl, ?_, ?_, by rw [hg]; rfl, by rw [hg]; rfl,
    by rw [hg]; rfl, by rw [hg]; rfl, by rw [hg]; rfl, by rw [hg]; rfl, ?_⟩
  · rw [hg, poincare_point_11, disk_R]
    ring
  · rw [hg, poincare_point_22, disk_R]
    ring
  · rintro ⟨h1, h2⟩
    constructor
    · rw [hg, poincare_point_11, disk_R, h1, h2]
      norm_num
      ring
    · rw [hg, poincare_point_22, disk_R, h1, h2]
      norm_num
      ring

/-- Witness for C7 at the one-point batch on the origin with R = 100. -/
theorem poincare_disk_spec_witness :
    0 < ((constData pt0).get_linear
        (space.TransformPoincareDisk BaseSpace.cielabBase 100)).length ∧
    (poincare_disk (space.TransformPoincareDisk BaseSpace.cielabBase 100)
        (constData pt0)).g.getD 0 0 0 0 = 1 ∧
    ((constData pt0).get_linear
        (space.TransformPoincareDisk BaseSpace.cielabBase 100)).getD 0
        defPoint 1 = 0 ∧
    (poincare_disk (space.TransformPoincareDisk BaseSpace.cielabBase 100)
        (constData pt0)).g.getD 0 0 1 1 = 4 * (100 : ℝ) ^ 2 ∧
    (poincare_disk (space.TransformPoincareDisk BaseSpace.cielabBase 100)
        (constData pt0)).g.getD 0 0 2 2 = 4 * (100 : ℝ) ^ 2 :=
  ⟨by decide,
   (poincare_disk_spec BaseSpace.cielabBase 100 (constData pt0) 0 (by decide)).1,
   rfl,
   ((poincare_disk_spec BaseSpace.cielabBase 100 (constData pt0) 0
      (by decide)).2.2.2.2.2.2.2.2.2 ⟨rfl, rfl⟩).1,
   ((poincare_disk_spec BaseSpace.cielabBase 100 (constData pt0) 0
      (by decide)).2.2.2.2.2.2.2.2.2 ⟨rfl, rfl⟩).2⟩

/-- C8: replacing the curvature radius of the disk space, namely `R` by `s·R` (s > 0)
multiplies `g[1,1]` and `g[2,2]` by `s²` at every point, while `g[0,0]`
remains 1 and all other entries remain zero. -/
theorem poincare_disk_R_scaling (b : BaseSpace) (R s : ℝ) (dat : Data)
    (hs : 0 < s) (n : ℕ)
    (hn : n < (dat.get_linear (space.TransformPoincareDisk b R)).length) :
    (poincare_disk (space.TransformPoincareDisk b (s * R)) dat).g.getD n 0
        0 0 = 1 ∧
    (poincare_disk (space.TransformPoincareDisk b (s * R)) dat).g.getD n 0
        1 1 =
      s ^ 2 *
        (poincare_disk (space.TransformPoincareDisk b R) dat).g.getD n 0
          1 1 ∧
    (poincare_disk (space.TransformPoincareDisk b (s * R)) dat).g.getD n 0
        2 2 =
      s ^ 2 *
        (poincare_disk (space.TransformPoincareDisk b R) dat).g.getD n 0
          2 2 ∧
    (poincare_disk (space.TransformPoincareDisk b (s * R)) dat).g.getD n 0
        0 1 = 0 ∧
    (poincare_disk (space.TransformPoincareDisk b (s * R)) dat).g.getD n 0
        0 2 = 0 ∧
    (poincare_disk (space.TransformPoincareDisk b (s * R)) dat).g.getD n 0
        1 0 = 0 ∧
    (poincare_disk (space.TransformPoincareDisk b (s * R)) dat).g.getD n 0
        1 2 = 0 ∧
    (poincare_disk (space.TransformPoincareDisk b (s * R)) dat).g.getD n 0
        2 0 = 0 ∧
    (poincare_disk (space.TransformPoincareDisk b (s * R)) dat).g.getD n 0
        2 1 = 0 := by
  have hg1 := poincare_g_getD (space.TransformPoincareDisk b R) dat n hn
  have hg2 := poincare_g_getD (space.TransformPoincareDisk b (s * R)) dat n hn
  refine ⟨by rw [hg2]; rfl, ?_, ?_, by rw [hg2]; rfl, by rw [hg2]; rfl,
    by rw [hg2]; rfl, by rw [hg2]; rfl, by rw [hg2]; rfl, by rw [hg2]; rfl⟩
  · rw [hg2, hg1, poincare_point_11, poincare_point_11, disk_R, disk_R]
    simp only [Data.get_linear, space.TransformPoincareDisk, ColourSpace.id]
    ring
  · rw [hg2, hg1, poincare_point_22, poincare_point_22, disk_R, disk_R]
    simp only [Data.get_linear, space.TransformPoincareDisk, ColourSpace.id]
    ring

/-- Witness for C8 at the one-point batch on the origin, R = 100, s = 2. -/
theorem poincare_disk_R_scaling_witness :
    (0 : ℝ) < 2 ∧
    0 < ((constData pt0).get_linear
        (space.TransformPoincareDisk BaseSpace.cielabBase 100)).length ∧
    ((poincare_disk (space.TransformPoincareDisk BaseSpace.cielabBase
        ((2 : ℝ) * 100)) (constData pt0)).g.getD 0 0 0 0 = 1 ∧
     (poincare_disk (space.TransformPoincareDisk BaseSpace.cielabBase
        ((2 : ℝ) * 100)) (constData pt0)).g.getD 0 0 1 1 =
       (2 : ℝ) ^ 2 *
         (poincare_disk (space.TransformPoincareDisk BaseSpace.cielabBase 100)
           (constData pt0)).g.getD 0 0 1 1) :=
  ⟨by norm_num, by decide,
   (poincare_disk_R_scaling BaseSpace.cielabBase 100 2 (constData pt0)
      (by norm_num) 0 (by decide)).1,
   (poincare_disk_R_scaling BaseSpace.cielabBase 100 2 (constData pt0)
      (by norm_num) 0 (by decide)).2.1⟩

/-- C9: every matrix produced by any of the builders — `euclidean`, each of
the seven named Euclidean builders, `dE_00`, `poincare_disk` — is symmetric:
`g[i,j] = g[j,i]` for all indices. -/
theorem builders_symmetric :
    (∀ (sp : ColourSpace) (dat : Data), ∀ g ∈ (euclidean sp dat).g,
      ∀ i j : Fin 3, g i j = g j i) ∧
    (∀ F ∈ [dE_ab, dE_uv, dE_E, dE_DIN99, dE_DIN99b, dE_DIN99c, dE_DIN99d],
      ∀ dat : Data, ∀ g ∈ (F dat).g, ∀ i j : Fin 3, g i j = g j i) ∧
    (∀ (dat : Data) (k_L k_C k_h : ℝ), ∀ g ∈ (dE_00 dat k_L k_C k_h).g,
      ∀ i j : Fin 3, g i j = g j i) ∧
    (∀ (sp : ColourSpace) (dat : Data), ∀ g ∈ (poincare_disk sp dat).g,
      ∀ i j : Fin 3, g i j = g j i) := by
  have heuc : ∀ (sp : ColourSpace) (dat : Data), ∀ g ∈ (euclidean sp dat).g,
      ∀ i j : Fin 3, g i j = g j i := by
    intro sp dat g hg i j
    rcases List.mem_map.1 hg with ⟨x, -, rfl⟩
    rw [Matrix.one_apply, Matrix.one_apply]
    by_cases h : i = j
    · rw [if_pos h, if_pos h.symm]
    · rw [if_neg h, if_neg (Ne.symm h)]
  refine ⟨heuc, ?_, ?_, ?_⟩
  · intro F hF dat g hg i j
    fin_cases hF <;> exact heuc _ dat g hg i j
  · intro dat k_L k_C k_h g hg i j
    rcases List.mem_map.1 hg with ⟨x, -, rfl⟩
    exact dE00_point_symm k_L k_C k_h x i j
  · intro sp dat g hg i j
    rcases List.mem_map.1 hg with ⟨x, -, rfl⟩
    exact poincare_point_symm sp.R x i j

/-- Witness for C9: one concrete matrix from each builder family. -/
theorem builders_symmetric_witness :
    (∀ i j : Fin 3, (1 : Mat3) i j = (1 : Mat3) j i) ∧
    (∀ i j : Fin 3, dE00_point 1 1 1 ptA i j = dE00_point 1 1 1 ptA j i) ∧
    (∀ i j : Fin 3,
      poincare_point
        ((space.TransformPoincareDisk BaseSpace.cielabBase 100).R) pt0 i j =
      poincare_point
        ((space.TransformPoincareDisk BaseSpace.cielabBase 100).R) pt0 j i) :=
  ⟨builders_symmetric.1 space.cielabSpace (constData pt0) 1 (List.Mem.head _),
   builders_symmetric.2.2.1 (constData ptA) 1 1 1 (dE00_point 1 1 1 ptA)
     (List.Mem.head _),
   builders_symmetric.2.2.2 (space.TransformPoincareDisk BaseSpace.cielabBase 100)
     (constData pt0)
     (poincare_point
       ((space.TransformPoincareDisk BaseSpace.cielabBase 100).R) pt0)
     (List.Mem.head _)⟩

/-- C10: the matrix batch produced by `euclidean` depends only on the number
of points in the sample batch — two batches of equal size yield identical
matrix batches — and it does not depend on the target colour space `sp` at
all (the builder never reads coordinates of the batch in `sp`). -/
theorem euclidean_size_only (sp : ColourSpace) (dat1 dat2 : Data)
    (hN : dat1.linear_XYZ.length = dat2.linear_XYZ.length) :
    (euclidean sp dat1).g = (euclidean sp dat2).g ∧
    ∀ sp' : ColourSpace, (euclidean sp' dat1).g = (euclidean sp dat1).g := by
  constructor
  · show (empty_matrix dat1.linear_XYZ).map (fun _ => (1 : Mat3)) =
      (empty_matrix dat2.linear_XYZ).map (fun _ => (1 : Mat3))
    rw [List.map_const', List.map_const']
    simp [empty_matrix, hN]
  · intro _
    rfl

/-- Witness for C10 on two different one-point batches. -/
theorem euclidean_size_only_witness :
    (constData pt0).linear_XYZ.length = (constData ptA).linear_XYZ.length ∧
    (euclidean space.cielabSpace (constData pt0)).g =
      (euclidean space.cielabSpace (constData ptA)).g ∧
    (∀ sp' : ColourSpace, (euclidean sp' (constData pt0)).g =
      (euclidean space.cielabSpace (constData pt0)).g) :=
  ⟨rfl,
   (euclidean_size_only space.cielabSpace (constData pt0) (constData ptA) rfl).1,
   (euclidean_size_only space.cielabSpace (constData pt0) (constData ptA) rfl).2⟩

end GamutTensor
